import Mathlib

/-!
Verification of the QIE-NEXUS core pipeline (backend/services/ai_inference.py and
backend/services/oracle.py) against its natural-language specification.

Shallow embedding conventions:
* Python floats are modelled as exact rationals (`ℚ`); Python ints as `ℤ`/`ℕ`.
* `float ** 0.5` (square root) appears only in the volatility slot; it is modelled
  by an arbitrary function parameter `sq : ℚ → ℚ`, since no claim constrains its
  numeric value.
* Python dicts (insertion-ordered) are modelled as association lists; a dict value
  that may fail the `isinstance(value, (int, float))` test is an `Option ℚ`
  (`none` = non-numeric value, skipped by the feature builder).
* `hashlib.md5(...).hexdigest()[:8]` and the seeded numpy draws
  (`np.random.normal(0, 10)`, `np.random.uniform(40, 80)`) are library calls that
  are deterministic functions of their textual input / of the numpy seed; they are
  modelled by arbitrary function parameters bundled in `PrngEnv`.
* `int(x)` on a Python float truncates toward zero: `pyTrunc`.
* `x % y` on Python floats follows the divisor's sign: `pyFmod`.
-/

namespace QIENexus

/-- Python `int(x)` on a float: truncation toward zero. -/
def pyTrunc (q : ℚ) : ℤ := if 0 ≤ q then ⌊q⌋ else ⌈q⌉

/-- Python `a % b` on floats: `a - b * floor(a / b)` (result has the divisor's sign). -/
def pyFmod (a b : ℚ) : ℚ := a - b * ⌊a / b⌋

/-- Python `max(xs)` on a non-empty list (`0` stands in for the empty-list error,
which the call sites guard against). -/
def pyMax : List ℚ → ℚ
  | [] => 0
  | x :: xs => xs.foldl max x

/-- Python `min(xs)` on a non-empty list (`0` stands in for the empty-list error). -/
def pyMin : List ℚ → ℚ
  | [] => 0
  | x :: xs => xs.foldl min x

/-- First-match lookup in an association list; models Python dict read
(`d[k]` / `k in d`), with insertion at the front modelling `d[k] = v`. -/
def dictGet {α : Type} : List (ℤ × α) → ℤ → Option α
  | [], _ => none
  | (k, v) :: rest, key => if k = key then some v else dictGet rest key

/-- Oracle price snapshot: the three category dicts, in their fixed order, each an
insertion-ordered symbol-to-value map. A `none` value models a non-numeric dict
entry (filtered out by `isinstance` in `prepare_features`). -/
structure OraclePrices where
  forex : List (String × Option ℚ)
  commodities : List (String × Option ℚ)
  crypto : List (String × Option ℚ)

/-- Market metadata passed to `prepare_features`; the source reads no field of it. -/
def MarketData := List (String × ℚ)

/-- The fourteen derived indicators computed in `prepare_features`
(ai_inference.py lines 163-187) from the 7-element `oracle_values` window:
moving average, momentum, volatility (std dev, via the `sq` parameter),
max, min, first, last, adjacent-decreasing pair count ("up days"),
adjacent-increasing pair count ("down days"), guarded first/last ratio,
guarded normalized range, and three zero padding slots. -/
def technical_indicators (sq : ℚ → ℚ) (oracle_values : List ℚ) : List ℚ :=
  let mean : ℚ := oracle_values.sum / (oracle_values.length : ℚ)
  let variance : ℚ := (oracle_values.map (fun x => (x - mean) ^ 2)).sum / (oracle_values.length : ℚ)
  [ oracle_values.sum / (oracle_values.length : ℚ),
    oracle_values.headD 0 - oracle_values.getLastD 0,
    sq variance,
    pyMax oracle_values,
    pyMin oracle_values,
    oracle_values.headD 0,
    oracle_values.getLastD 0,
    (((oracle_values.zip oracle_values.tail).countP (fun p => decide (p.2 < p.1)) : ℕ) : ℚ),
    (((oracle_values.zip oracle_values.tail).countP (fun p => decide (p.1 < p.2)) : ℕ) : ℚ),
    if oracle_values.getLastD 0 ≠ 0 then oracle_values.headD 0 / oracle_values.getLastD 0 else 1,
    if pyMax oracle_values ≠ 0 then (pyMax oracle_values - pyMin oracle_values) / pyMax oracle_values else 0,
    0, 0, 0 ]

/-- Lines 150-158 of `prepare_features`: collect the numeric values iterating
the categories forex, commodities, crypto in insertion order
(the `isinstance` filter drops `none` entries), then pad/truncate to 7 values,
`(oracle_values + [0.0] * 7)[:7]`. -/
def oracle_window (p : OraclePrices) : List ℚ :=
  (((p.forex ++ p.commodities ++ p.crypto).filterMap
      (fun kv : String × Option ℚ => kv.2)) ++ List.replicate 7 0).take 7

/-- `AIInferenceService.prepare_features` (ai_inference.py lines 137-193).
Builds the padded 7-value `oracle_window`, appends the 14 indicators when the
window has at least 7 entries (else 14 zeros — the source's dead branch, kept
verbatim), and truncates the result to 21 entries. -/
def prepare_features (sq : ℚ → ℚ) (oracle_prices : OraclePrices) (_market_data : MarketData) :
    List ℚ :=
  let oracle_values := oracle_window oracle_prices
  let features :=
    oracle_values ++
      (if 7 ≤ oracle_values.length then technical_indicators sq oracle_values
       else List.replicate 14 0)
  features.take 21

/-- Deterministic library functions used by `_fallback_prediction`, modelled as
arbitrary functions: `md5hex8 s` is `int(hashlib.md5(s.encode()).hexdigest()[:8], 16)`
(a pure function of the string `s`), and `normalDraw` / `uniformDraw` are the first
draw of `np.random.normal(0, 10)` / `np.random.uniform(40, 80)` after
`np.random.seed(seed)` (pure functions of the 32-bit seed — this seeded
reproducibility is numpy's documented contract). -/
structure PrngEnv where
  md5hex8 : String → ℕ
  normalDraw : ℕ → ℚ
  uniformDraw : ℕ → ℚ

/-- An ONNX inference session: maps the feature list to the raw model output
`result[0][0]`, or `none` when `session.run` raises. -/
def Session := List ℚ → Option ℚ

/-- `AIInferenceService._run_onnx_inference` (ai_inference.py lines 75-102):
`confidence = int(result[0][0] * 100)` truncated toward zero, clamped with
`max(0, min(100, confidence))`; any exception yields the neutral `50`. -/
def run_onnx_inference (session : Session) (features : List ℚ) : ℤ :=
  match session features with
  | some raw => max 0 (min 100 (pyTrunc (raw * 100)))
  | none => 50

/-- `AIInferenceService._fallback_prediction` (ai_inference.py lines 104-135):
seed from `md5(str(market_id))` truncated to 8 hex digits then reduced mod 2^32;
with a truthy feature list, `base = 50 + (sum(features) % 30) - 15` plus a seeded
normal draw; otherwise a seeded uniform draw from [40, 80); the integer result is
clamped with `max(5, min(95, confidence))`. -/
def fallback_prediction (env : PrngEnv) (market_id : ℤ)
    (features : Option (List ℚ)) : ℤ :=
  let seed := env.md5hex8 (toString market_id) % 2 ^ 32
  match features with
  | some fl =>
    if fl ≠ [] then
      let feature_sum := fl.sum
      let base_confidence : ℚ := 50 + pyFmod feature_sum 30 - 15
      let noise := env.normalDraw seed
      let confidence := pyTrunc (base_confidence + noise)
      max 5 (min 95 confidence)
    else
      max 5 (min 95 (pyTrunc (env.uniformDraw seed)))
  | none => max 5 (min 95 (pyTrunc (env.uniformDraw seed)))

/-- Mutable state of `AIInferenceService`: the active ONNX session (if any), the
`model_loaded` flag, the recorded model path, and the per-market prediction cache
(association list, newest entry first). -/
structure AIState where
  model_loaded : Bool
  session : Option Session
  model_path : String
  prediction_cache : List (ℤ × ℤ)

/-- The backend dispatch of `AIInferenceService.predict` (ai_inference.py lines
57-63): run ONNX inference when `self.model_loaded and self.session and features`
is truthy (a `features` list is truthy iff non-empty), else the fallback. -/
def select_confidence (env : PrngEnv) (st : AIState) (market_id : ℤ)
    (features : Option (List ℚ)) : ℤ :=
  match st.session, features with
  | some sess, some fl =>
    if st.model_loaded ∧ fl ≠ [] then run_onnx_inference sess fl
    else fallback_prediction env market_id (some fl)
  | _, _ => fallback_prediction env market_id features

/-- `AIInferenceService.predict` (ai_inference.py lines 42-73): return the cached
confidence on a cache hit; otherwise select a backend via `select_confidence`,
cache the result and return it. The `except` branch (return 50 uncached) is
unreachable in this exact-arithmetic model: both backends are total here. -/
def predict (env : PrngEnv) (st : AIState) (market_id : ℤ)
    (features : Option (List ℚ)) : ℤ × AIState :=
  match dictGet st.prediction_cache market_id with
  | some cached => (cached, st)
  | none =>
    let confidence := select_confidence env st market_id features
    (confidence,
      { st with prediction_cache := (market_id, confidence) :: st.prediction_cache })

/-- `AIInferenceService.update_model` (ai_inference.py lines 195-224).
`load_result` is the outcome of `ort.InferenceSession(model_path)`: `none` when
it (or the import) raises. Only after a successful load are the session, path and
loaded flag replaced and the cache cleared; on failure the state is untouched and
`False` is returned. -/
def update_model (st : AIState) (model_path : String) (load_result : Option Session) :
    Bool × AIState :=
  match load_result with
  | some new_session =>
    (true,
      { model_loaded := true
        session := some new_session
        model_path := model_path
        prediction_cache := [] })
  | none => (false, st)

/-! ### Oracle service (oracle.py) -/

/-- `OracleService._get_mock_price` (oracle.py lines 184-195): static defaults per
asset key, `100.0` otherwise. -/
def get_mock_price (asset : String) : ℚ :=
  if asset = "USD_EUR" then 92 / 100
  else if asset = "JPY_GBP" then 56 / 10000
  else if asset = "GOLD" then 204530 / 100
  else if asset = "OIL" then 7350 / 100
  else if asset = "bitcoin" then 43250
  else if asset = "ethereum" then 22805 / 10
  else if asset = "solana" then 9875 / 100
  else 100

/-- `OracleService._fetch_forex_price` (oracle.py lines 139-152) with
`use_fallback = True` (set unconditionally in `__init__`): `outcome` is the value
produced by the HTTP request/parse try-block (`none` when it raises); on failure
the static mock price for `f"{base}_{quote}"` is returned. -/
def fetch_forex_price (base quote : String) (outcome : Option ℚ) : ℚ :=
  outcome.getD (get_mock_price (base ++ "_" ++ quote))

/-- `OracleService._fetch_commodity_price` (oracle.py lines 154-164) with
`use_fallback = True`: no network call at all, a static table with default `0.0`. -/
def fetch_commodity_price (commodity : String) : ℚ :=
  if commodity = "GOLD" then 204530 / 100
  else if commodity = "OIL" then 7350 / 100
  else 0

/-- `OracleService._fetch_crypto_price` (oracle.py lines 166-182) with
`use_fallback = True`: `outcome` is the CoinGecko request/parse result (`none`
when the try-block raises); on failure the static mock price is returned. -/
def fetch_crypto_price (crypto_id : String) (outcome : Option ℚ) : ℚ :=
  outcome.getD (get_mock_price crypto_id)

/-- The outcome of the five network fetches one `fetch_all_prices` call performs
(`none` = that fetch's try-block raised; the two commodity "fetches" do no I/O). -/
structure FetchOutcomes where
  usd_eur : Option ℚ
  jpy_gbp : Option ℚ
  btc : Option ℚ
  eth : Option ℚ
  sol : Option ℚ

/-- A price snapshot as returned by `fetch_all_prices`: the three category dicts
plus the capture timestamp. -/
structure PriceSnapshot where
  forex : List (String × ℚ)
  commodities : List (String × ℚ)
  crypto : List (String × ℚ)
  timestamp : ℕ

/-- `OracleService.fetch_all_prices` (oracle.py lines 45-85). Each per-asset
helper catches its own exceptions and returns a value, so the surrounding
`try/except` (return stale cache on error) is unreachable and the function always
returns the freshly built, fully populated snapshot. -/
def fetch_all_prices (o : FetchOutcomes) (now : ℕ) : PriceSnapshot :=
  { forex :=
      [("USD_EUR", fetch_forex_price "USD" "EUR" o.usd_eur),
       ("JPY_GBP", fetch_forex_price "JPY" "GBP" o.jpy_gbp)]
    commodities :=
      [("GOLD", fetch_commodity_price "GOLD"),
       ("OIL", fetch_commodity_price "OIL")]
    crypto :=
      [("BTC", fetch_crypto_price "bitcoin" o.btc),
       ("ETH", fetch_crypto_price "ethereum" o.eth),
       ("SOL", fetch_crypto_price "solana" o.sol)]
    timestamp := now }

/-- String-keyed first-match lookup (Python `k in d` / `d[k]` for the snapshot's
category dicts). -/
def strDictGet {α : Type} : List (String × α) → String → Option α
  | [], _ => none
  | (k, v) :: rest, key => if k = key then some v else strDictGet rest key

/-! ### Shared lemmas -/

lemma oracle_window_length (p : OraclePrices) : (oracle_window p).length = 7 := by
  unfold oracle_window
  rw [List.length_take, List.length_append, List.length_replicate]
  omega

lemma technical_indicators_length (sq : ℚ → ℚ) (w : List ℚ) :
    (technical_indicators sq w).length = 14 := by
  simp [technical_indicators]

lemma prepare_features_unfold (sq : ℚ → ℚ) (p : OraclePrices) (md : MarketData) :
    prepare_features sq p md =
      (oracle_window p ++ technical_indicators sq (oracle_window p)).take 21 := by
  simp only [prepare_features, oracle_window_length]
  norm_num

lemma prepare_features_eq (sq : ℚ → ℚ) (p : OraclePrices) (md : MarketData) :
    prepare_features sq p md =
      oracle_window p ++ technical_indicators sq (oracle_window p) := by
  rw [prepare_features_unfold]
  apply List.take_of_length_le
  rw [List.length_append, oracle_window_length, technical_indicators_length]

lemma fallback_prediction_bounds (env : PrngEnv) (mid : ℤ) (f : Option (List ℚ)) :
    5 ≤ fallback_prediction env mid f ∧ fallback_prediction env mid f ≤ 95 := by
  rcases f with _ | fl
  · dsimp only [fallback_prediction]
    exact ⟨le_max_left _ _, max_le (by norm_num) (min_le_left _ _)⟩
  · dsimp only [fallback_prediction]
    by_cases h : fl ≠ []
    · rw [if_pos h]
      exact ⟨le_max_left _ _, max_le (by norm_num) (min_le_left _ _)⟩
    · rw [if_neg h]
      exact ⟨le_max_left _ _, max_le (by norm_num) (min_le_left _ _)⟩

lemma run_onnx_inference_bounds (sess : Session) (f : List ℚ) :
    0 ≤ run_onnx_inference sess f ∧ run_onnx_inference sess f ≤ 100 := by
  unfold run_onnx_inference
  rcases sess f with _ | raw
  · norm_num
  · exact ⟨le_max_left _ _, max_le (by norm_num) (min_le_left _ _)⟩

lemma select_confidence_bounds (env : PrngEnv) (st : AIState) (mid : ℤ)
    (f : Option (List ℚ)) :
    0 ≤ select_confidence env st mid f ∧ select_confidence env st mid f ≤ 100 := by
  have hfb : ∀ (m : ℤ) (f' : Option (List ℚ)),
      0 ≤ fallback_prediction env m f' ∧ fallback_prediction env m f' ≤ 100 := by
    intro m f'
    obtain ⟨h1, h2⟩ := fallback_prediction_bounds env m f'
    exact ⟨by omega, by omega⟩
  unfold select_confidence
  rcases st.session with _ | sess <;> rcases f with _ | fl <;> dsimp only
  · exact hfb mid none
  · exact hfb mid (some fl)
  · exact hfb mid none
  · split
    · exact run_onnx_inference_bounds sess fl
    · exact hfb mid (some fl)

lemma predict_cache_hit (env : PrngEnv) (st : AIState) (mid : ℤ)
    (f : Option (List ℚ)) (c : ℤ) (h : dictGet st.prediction_cache mid = some c) :
    predict env st mid f = (c, st) := by
  unfold predict
  rw [h]

lemma predict_caches (env : PrngEnv) (st : AIState) (mid : ℤ)
    (f : Option (List ℚ)) :
    dictGet (predict env st mid f).2.prediction_cache mid =
      some (predict env st mid f).1 := by
  rcases hd : dictGet st.prediction_cache mid with _ | cached
  · unfold predict
    rw [hd]
    dsimp only
    unfold dictGet
    rw [if_pos rfl]
  · unfold predict
    rw [hd]
    exact hd

/-! ### Claims -/

/-- C1: for every price snapshot (any category maps, with any mix of numeric and
non-numeric values — 0, 3, 7 or more numeric entries) and every market metadata,
`prepare_features` returns exactly 21 values. -/
theorem C1_prepare_features_length_21 (sq : ℚ → ℚ) (p : OraclePrices) (md : MarketData) :
    (prepare_features sq p md).length = 21 := by
  rw [prepare_features_eq, List.length_append, oracle_window_length,
    technical_indicators_length]

/-- C2: the fallback backend is deterministic and depends on `marketId` only via
the 32-bit seed derived by hashing `str(marketId)` with md5: for a fixed library
environment (md5 and the seeded numpy draws are pure functions, which is exactly
their cross-process reproducibility contract), any two market ids whose derived
seeds coincide, with the same optional feature vector, yield the same confidence.
In particular two calls with the same `marketId` in different runs agree. -/
theorem C2_fallback_deterministic (env : PrngEnv) (mid₁ mid₂ : ℤ)
    (features : Option (List ℚ))
    (h : env.md5hex8 (toString mid₁) % 2 ^ 32 = env.md5hex8 (toString mid₂) % 2 ^ 32) :
    fallback_prediction env mid₁ features = fallback_prediction env mid₂ features := by
  unfold fallback_prediction
  rw [h]

/-- Witness for C2 at a concrete environment and market ids 1 and 2 whose hashes
collide. -/
theorem C2_fallback_deterministic_witness :
    fallback_prediction ⟨fun _ => 7, fun _ => 0, fun _ => 0⟩ 1 (some [1, 2]) =
      fallback_prediction ⟨fun _ => 7, fun _ => 0, fun _ => 0⟩ 2 (some [1, 2]) :=
  C2_fallback_deterministic ⟨fun _ => 7, fun _ => 0, fun _ => 0⟩ 1 2 (some [1, 2]) rfl

/-- C4: from any service state whose cache only holds values in [0, 100]
(an invariant `predict` itself maintains), `predict` returns a confidence in
[0, 100] for every market id and optional feature vector, the resulting state
still satisfies the invariant, and every fallback-computed confidence lies in
the tighter range [5, 95]. -/
theorem C4_predict_bounds (env : PrngEnv) (st : AIState) (mid : ℤ)
    (f : Option (List ℚ))
    (hcache : ∀ m c, dictGet st.prediction_cache m = some c → 0 ≤ c ∧ c ≤ 100) :
    (0 ≤ (predict env st mid f).1 ∧ (predict env st mid f).1 ≤ 100) ∧
    (∀ m c, dictGet (predict env st mid f).2.prediction_cache m = some c →
      0 ≤ c ∧ c ≤ 100) ∧
    (∀ (mid' : ℤ) (f' : Option (List ℚ)),
      5 ≤ fallback_prediction env mid' f' ∧ fallback_prediction env mid' f' ≤ 95) := by
  refine ⟨?_, ?_, fun mid' f' => fallback_prediction_bounds env mid' f'⟩ <;>
    rcases hd : dictGet st.prediction_cache mid with _ | cached
  · unfold predict
    rw [hd]
    exact select_confidence_bounds env st mid f
  · unfold predict
    rw [hd]
    exact hcache mid cached hd
  · unfold predict
    rw [hd]
    intro m c hc
    dsimp only at hc
    unfold dictGet at hc
    split at hc
    · cases hc
      exact select_confidence_bounds env st mid f
    · exact hcache m c hc
  · unfold predict
    rw [hd]
    exact hcache

/-- Witness for C4 at a concrete environment and the freshly initialized state
(empty cache, no session). -/
theorem C4_predict_bounds_witness :
    (0 ≤ (predict ⟨fun _ => 0, fun _ => 0, fun _ => 0⟩ ⟨false, none, "", []⟩ 0 none).1 ∧
      (predict ⟨fun _ => 0, fun _ => 0, fun _ => 0⟩ ⟨false, none, "", []⟩ 0 none).1 ≤ 100) ∧
    (∀ m c,
      dictGet (predict ⟨fun _ => 0, fun _ => 0, fun _ => 0⟩
        ⟨false, none, "", []⟩ 0 none).2.prediction_cache m = some c →
      0 ≤ c ∧ c ≤ 100) ∧
    (∀ (mid' : ℤ) (f' : Option (List ℚ)),
      5 ≤ fallback_prediction ⟨fun _ => 0, fun _ => 0, fun _ => 0⟩ mid' f' ∧
        fallback_prediction ⟨fun _ => 0, fun _ => 0, fun _ => 0⟩ mid' f' ≤ 95) :=
  C4_predict_bounds ⟨fun _ => 0, fun _ => 0, fun _ => 0⟩ ⟨false, none, "", []⟩ 0 none
    (fun m c hc => by simp [dictGet] at hc)

/-- C5: for every market id, two consecutive `predict` calls with no intervening
`updateModel` agree: after the first call the result is in the per-market cache,
and the second call — with any feature vector whatsoever — returns that cached
confidence and leaves the state unchanged. -/
theorem C5_predict_cache_hit (env : PrngEnv) (st : AIState) (mid : ℤ)
    (f₁ f₂ : Option (List ℚ)) :
    dictGet (predict env st mid f₁).2.prediction_cache mid =
      some (predict env st mid f₁).1 ∧
    predict env (predict env st mid f₁).2 mid f₂ =
      ((predict env st mid f₁).1, (predict env st mid f₁).2) :=
  ⟨predict_caches env st mid f₁,
    predict_cache_hit env (predict env st mid f₁).2 mid f₂ (predict env st mid f₁).1
      (predict_caches env st mid f₁)⟩

/-- C6: `update_model` is atomic. When the load raises (outcome `none`) it
returns `False` and the state — active session, recorded path, loaded flag and
per-market cache — is exactly the old one, so subsequent `predict` calls behave
as before; when the load succeeds the new session is installed, the path and flag
are updated, and the prediction cache is emptied. -/
theorem C6_update_model_atomic (st : AIState) (path : String) :
    (update_model st path none = (false, st) ∧
      ∀ (env : PrngEnv) (mid : ℤ) (f : Option (List ℚ)),
        predict env (update_model st path none).2 mid f = predict env st mid f) ∧
    ∀ sess : Session,
      update_model st path (some sess) =
        (true,
          { model_loaded := true, session := some sess, model_path := path,
            prediction_cache := [] }) :=
  ⟨⟨rfl, fun _ _ _ => rfl⟩, fun _ => rfl⟩

/-- C3: `fetch_all_prices` is fail-soft. For every outcome of the five upstream
fetches — including all of them raising — it returns a snapshot (it is a total
function: no error ever reaches the caller) in which every configured asset key
is present in its category, and any asset whose fetch raised carries the
configured static default from `_get_mock_price` (the two commodity entries do no
network fetch at all and always carry their static values, which coincide with
those defaults). -/
theorem C3_fetch_all_prices_fail_soft (o : FetchOutcomes) (now : ℕ) :
    ((strDictGet (fetch_all_prices o now).forex "USD_EUR").isSome = true ∧
     (strDictGet (fetch_all_prices o now).forex "JPY_GBP").isSome = true ∧
     (strDictGet (fetch_all_prices o now).commodities "GOLD").isSome = true ∧
     (strDictGet (fetch_all_prices o now).commodities "OIL").isSome = true ∧
     (strDictGet (fetch_all_prices o now).crypto "BTC").isSome = true ∧
     (strDictGet (fetch_all_prices o now).crypto "ETH").isSome = true ∧
     (strDictGet (fetch_all_prices o now).crypto "SOL").isSome = true) ∧
    (o.usd_eur = none →
      strDictGet (fetch_all_prices o now).forex "USD_EUR" =
        some (get_mock_price "USD_EUR")) ∧
    (o.jpy_gbp = none →
      strDictGet (fetch_all_prices o now).forex "JPY_GBP" =
        some (get_mock_price "JPY_GBP")) ∧
    strDictGet (fetch_all_prices o now).commodities "GOLD" =
      some (get_mock_price "GOLD") ∧
    strDictGet (fetch_all_prices o now).commodities "OIL" =
      some (get_mock_price "OIL") ∧
    (o.btc = none →
      strDictGet (fetch_all_prices o now).crypto "BTC" =
        some (get_mock_price "bitcoin")) ∧
    (o.eth = none →
      strDictGet (fetch_all_prices o now).crypto "ETH" =
        some (get_mock_price "ethereum")) ∧
    (o.sol = none →
      strDictGet (fetch_all_prices o now).crypto "SOL" =
        some (get_mock_price "solana")) := by
  obtain ⟨ue, jg, b, e, s⟩ := o
  refine ⟨⟨?_, ?_, ?_, ?_, ?_, ?_, ?_⟩, ?_, ?_, ?_, ?_, ?_, ?_, ?_⟩
  · rfl
  · rfl
  · rfl
  · rfl
  · rfl
  · rfl
  · rfl
  · intro h
    subst h
    rfl
  · intro h
    subst h
    rfl
  · rfl
  · rfl
  · intro h
    subst h
    rfl
  · intro h
    subst h
    rfl
  · intro h
    subst h
    rfl

/-- Witness for C3 at the outcome where all five network fetches fail: every
fallen-back asset carries its static default. -/
theorem C3_fetch_all_prices_fail_soft_witness :
    strDictGet (fetch_all_prices ⟨none, none, none, none, none⟩ 0).forex "USD_EUR" =
      some (get_mock_price "USD_EUR") ∧
    strDictGet (fetch_all_prices ⟨none, none, none, none, none⟩ 0).forex "JPY_GBP" =
      some (get_mock_price "JPY_GBP") ∧
    strDictGet (fetch_all_prices ⟨none, none, none, none, none⟩ 0).crypto "BTC" =
      some (get_mock_price "bitcoin") ∧
    strDictGet (fetch_all_prices ⟨none, none, none, none, none⟩ 0).crypto "ETH" =
      some (get_mock_price "ethereum") ∧
    strDictGet (fetch_all_prices ⟨none, none, none, none, none⟩ 0).crypto "SOL" =
      some (get_mock_price "solana") :=
  ⟨(C3_fetch_all_prices_fail_soft ⟨none, none, none, none, none⟩ 0).2.1 rfl,
   (C3_fetch_all_prices_fail_soft ⟨none, none, none, none, none⟩ 0).2.2.1 rfl,
   (C3_fetch_all_prices_fail_soft ⟨none, none, none, none, none⟩ 0).2.2.2.2.2.1 rfl,
   (C3_fetch_all_prices_fail_soft ⟨none, none, none, none, none⟩ 0).2.2.2.2.2.2.1 rfl,
   (C3_fetch_all_prices_fail_soft ⟨none, none, none, none, none⟩ 0).2.2.2.2.2.2.2 rfl⟩

/-- C7 counterexample: on raw model output `0.019` the code computes
`int(0.019 * 100) = 1` (truncation toward zero), while the claimed
`round(0.019 * 100) = 2`; the claim's conversion formula does not match the code. -/
theorem C7_counterexample :
    run_onnx_inference (fun _ => some (19 / 1000)) [] = 1 ∧
    max 0 (min 100 (round ((19 / 1000 : ℚ) * 100))) = 2 ∧ (1 : ℤ) ≠ 2 := by
  refine ⟨?_, ?_, by decide⟩
  · show max 0 (min 100 (pyTrunc ((19 / 1000 : ℚ) * 100))) = 1
    unfold pyTrunc
    rw [if_pos (by norm_num)]
    norm_num
  · norm_num [round_eq]

/-- C7 amended: when the learned-model backend returns raw output `raw`, the
confidence is the *truncation toward zero* of `raw * 100` (Python `int()`),
clamped into [0, 100]; and the returned confidence always lies in [0, 100]. -/
theorem C7_onnx_truncated_clamped (session : Session) (features : List ℚ) (raw : ℚ)
    (h : session features = some raw) :
    run_onnx_inference session features = max 0 (min 100 (pyTrunc (raw * 100))) ∧
    0 ≤ run_onnx_inference session features ∧
    run_onnx_inference session features ≤ 100 := by
  unfold run_onnx_inference
  rw [h]
  exact ⟨rfl, le_max_left _ _, max_le (by norm_num) (min_le_left _ _)⟩

/-- Witness for C7's amended theorem at raw output `1/2`. -/
theorem C7_onnx_truncated_clamped_witness :
    run_onnx_inference (fun _ => some (1 / 2)) [] =
      max 0 (min 100 (pyTrunc ((1 / 2 : ℚ) * 100))) ∧
    0 ≤ run_onnx_inference (fun _ => some (1 / 2)) [] ∧
    run_onnx_inference (fun _ => some (1 / 2)) [] ≤ 100 :=
  C7_onnx_truncated_clamped (fun _ => some (1 / 2)) [] (1 / 2) rfl

/-- C8: the division-guarded indicators of a 7-element window have the fixed
defaults: the first-to-last ratio (indicator slot 9, feature position 16) is
`1.0` when the last window value is zero and `first/last` otherwise; the
normalized range (slot 10, position 17) is `0.0` when the window maximum is zero
and `(max - min)/max` otherwise. -/
theorem C8_division_guards (sq : ℚ → ℚ) (w : List ℚ) (_hw : w.length = 7) :
    (w.getLastD 0 = 0 → (technical_indicators sq w).get? 9 = some 1) ∧
    (w.getLastD 0 ≠ 0 →
      (technical_indicators sq w).get? 9 = some (w.headD 0 / w.getLastD 0)) ∧
    (pyMax w = 0 → (technical_indicators sq w).get? 10 = some 0) ∧
    (pyMax w ≠ 0 →
      (technical_indicators sq w).get? 10 = some ((pyMax w - pyMin w) / pyMax w)) := by
  have h9 : (technical_indicators sq w).get? 9 =
      some (if w.getLastD 0 ≠ 0 then w.headD 0 / w.getLastD 0 else 1) := rfl
  have h10 : (technical_indicators sq w).get? 10 =
      some (if pyMax w ≠ 0 then (pyMax w - pyMin w) / pyMax w else 0) := rfl
  refine ⟨fun h => ?_, fun h => ?_, fun h => ?_, fun h => ?_⟩
  · rw [h9, if_neg (not_not_intro h)]
  · rw [h9, if_pos h]
  · rw [h10, if_neg (not_not_intro h)]
  · rw [h10, if_pos h]

/-- Witness for C8 at a concrete 7-element window with nonzero last value and
maximum. -/
theorem C8_division_guards_witness :
    (([3, 1, 4, 1, 5, 9, 2] : List ℚ).getLastD 0 = 0 →
      (technical_indicators (fun _ => 0) [3, 1, 4, 1, 5, 9, 2]).get? 9 = some 1) ∧
    (([3, 1, 4, 1, 5, 9, 2] : List ℚ).getLastD 0 ≠ 0 →
      (technical_indicators (fun _ => 0) [3, 1, 4, 1, 5, 9, 2]).get? 9 =
        some (([3, 1, 4, 1, 5, 9, 2] : List ℚ).headD 0 /
          ([3, 1, 4, 1, 5, 9, 2] : List ℚ).getLastD 0)) ∧
    (pyMax [3, 1, 4, 1, 5, 9, 2] = 0 →
      (technical_indicators (fun _ => 0) [3, 1, 4, 1, 5, 9, 2]).get? 10 = some 0) ∧
    (pyMax [3, 1, 4, 1, 5, 9, 2] ≠ 0 →
      (technical_indicators (fun _ => 0) [3, 1, 4, 1, 5, 9, 2]).get? 10 =
        some ((pyMax [3, 1, 4, 1, 5, 9, 2] - pyMin [3, 1, 4, 1, 5, 9, 2]) /
          pyMax [3, 1, 4, 1, 5, 9, 2])) :=
  C8_division_guards (fun _ => 0) [3, 1, 4, 1, 5, 9, 2] (by decide)

/-- C9 counterexample: the empty snapshot has 0 (< 7) raw price values, yet
position 16 of the feature vector (the guarded first-to-last ratio over the
zero-padded window) is `1.0`, not `0.0`: positions 7-20 are not all zero. -/
theorem C9_counterexample :
    (prepare_features (fun _ => 0) ⟨[], [], []⟩ ([] : MarketData)).get? 16 =
      some 1 ∧
    ¬ ((prepare_features (fun _ => 0) ⟨[], [], []⟩ ([] : MarketData)).drop 7 =
        List.replicate 14 (0 : ℚ)) := by
  have h16 : (prepare_features (fun _ => 0) ⟨[], [], []⟩ ([] : MarketData)).get? 16 =
      some 1 := rfl
  refine ⟨h16, fun hEq => ?_⟩
  have h9 := congrArg (fun l => l[9]?) hEq
  simp only [List.getElem?_drop] at h9
  rw [show (7 : ℕ) + 9 = 16 from rfl,
    show (prepare_features (fun _ => 0) ⟨[], [], []⟩ ([] : MarketData))[16]? =
      some (1 : ℚ) from rfl,
    show (List.replicate 14 (0 : ℚ))[9]? = some 0 from rfl] at h9
  exact absurd h9 (by simp)

/-- C9 amended: after the pad/truncate step the window always has exactly 7
entries, so the `len(oracle_values) >= 7` branch is always taken: for every
snapshot — in particular one with fewer than 7 raw values — positions 7-20 are
the fourteen indicators computed over the zero-padded window, not a block of
zeros (the zero-fill branch of the source is dead code). -/
theorem C9_indicators_always_computed (sq : ℚ → ℚ) (p : OraclePrices)
    (md : MarketData) :
    (oracle_window p).length = 7 ∧
    prepare_features sq p md =
      oracle_window p ++ technical_indicators sq (oracle_window p) :=
  ⟨oracle_window_length p, prepare_features_eq sq p md⟩

/-- C10: on the concrete snapshot of the spec's example (category iteration
order forex, commodities, crypto; zero-padded to 7), the feature vector is
`[0.92, 43250.0, 2280.5, 98.75, 0, 0, 0]` followed by the fourteen indicators
computed over that same padded window. -/
theorem C10_concrete_example (sq : ℚ → ℚ) (md : MarketData) :
    prepare_features sq
        ⟨[("USD_EUR", some 0.92)], [],
          [("BTC", some 43250.0), ("ETH", some 2280.5), ("SOL", some 98.75)]⟩ md =
      [0.92, 43250.0, 2280.5, 98.75, 0, 0, 0] ++
        technical_indicators sq [0.92, 43250.0, 2280.5, 98.75, 0, 0, 0] := by
  rw [prepare_features_eq]
  rfl

end QIENexus
